import Mathlib

/-!
Verification development for the CPgodaddyDNS repository: a shallow
embedding of the DNS reconciliation core (src/sync_manager.py), the
registrar client (src/gdapi.py), the domain classifier
(src/domain_discovery.py) and the sync-run log model (src/models.py),
together with theorems settling the frozen claims about them.

Modelling conventions: Python dicts of the shape `Dict[str, Any]` used for
DNS records are embedded as structures with `Option` fields, `none`
standing for an absent key.  The normalized comparison records built by
`_build_record_map` always carry every key, so there `none` stands for an
explicit Python `None` value.  Database rows are lists of structures,
timestamps are abstract naturals, and the HTTP boundary is represented by
the request bodies/calls the code would emit.
-/

namespace CPgodaddyDNS

/-- Python `str(x)` for a value that is either a string or `None`. -/
def pyStrOfOptStr : Option String → String
  | some s => s
  | none => "None"

/-- Python `str.strip()` on the character list: drop leading and trailing
whitespace. -/
def stripChars (l : List Char) : List Char :=
  ((l.dropWhile Char.isWhitespace).reverse.dropWhile Char.isWhitespace).reverse

/-- Python `str.strip()`. -/
def pyStrip (s : String) : String := String.mk (stripChars s.data)

/-- Python `a or b` on string-or-None values: `a` is kept when it is truthy
(a non-empty string), otherwise the expression evaluates to `b`. -/
def pyOrStr : Option String → Option String → Option String
  | some s, b => if s = "" then b else some s
  | none, b => b

/-- Python `a or b` on int-or-None values: `a` is kept when it is truthy
(non-zero), otherwise the expression evaluates to `b`. -/
def pyOrInt : Option Int → Option Int → Option Int
  | some n, b => if n = 0 then b else some n
  | none, b => b

/-- A single quote character, used by the Python `repr` of strings. -/
def pyQuoteChar : String := String.singleton (Char.ofNat 39)

/-- Python `repr` of a list of plain strings, as interpolated by f-strings. -/
def pyListRepr (l : List String) : String :=
  "[" ++ String.intercalate ", " (l.map (fun s => pyQuoteChar ++ s ++ pyQuoteChar)) ++ "]"

/-- A raw DNS record dict as it flows through sync_manager.py: GoDaddy API
records carry name/type/data/ttl/priority, local rows carry
id/name/type/data/ttl/priority (built in `_get_local_records`).  `none`
models an absent key. -/
structure PyRecord where
  id : Option Nat := none
  name : Option String := none
  type : Option String := none
  data : Option String := none
  content : Option String := none
  ttl : Option Int := none
  priority : Option Int := none
  prio : Option Int := none
deriving DecidableEq

/-- A normalized comparison record: one value of `_build_record_map`.  All
keys are present; `none` in `data`/`priority` models a stored Python
`None`. -/
structure NormRecord where
  name : String
  type : Option String
  data : Option String
  ttl : Int
  priority : Option Int
  source : String
  original : PyRecord
deriving DecidableEq

/-- A row of the local DNS store (dns.models.Records) as touched by the
sync manager: `_create_local_record` writes content/ttl/prio (plus
disabled=0, auth=1), `_update_local_record` rewrites content/ttl/prio. -/
structure StoredRecord where
  id : Nat
  name : String
  type : Option String
  content : Option String
  ttl : Int
  prio : Option Int
  disabled : Nat := 0
  auth : Nat := 1
deriving DecidableEq

/-- A GoDaddyRecordHistory row as created by the local record operations. -/
structure HistoryEntry where
  domainName : String
  recordName : String
  recordType : Option String
  changeType : String
  changeSource : String
  oldContent : Option String := none
  newContent : Option String := none
  oldTtl : Option Int := none
  newTtl : Option Int := none
  oldPriority : Option Int := none
  newPriority : Option Int := none
deriving DecidableEq

/-- A Python dict keyed by the `f"{name}||{record_type}"` strings, with
insertion order preserved and later inserts overwriting in place. -/
abbrev RecordMap := List (String × NormRecord)

/-- The comparison key `f"{name}||{record_type}"` of `_build_record_map`
(a `None` record type is rendered as the string "None" by the f-string). -/
def recordKey (name : String) (type : Option String) : String :=
  name ++ "||" ++ pyStrOfOptStr type

/-- Python dict assignment `record_map[key] = value`: overwrite in place
when the key exists, append otherwise. -/
def mapInsert (m : RecordMap) (k : String) (v : NormRecord) : RecordMap :=
  if m.any (fun p => p.1 == k) then
    m.map (fun p => if p.1 == k then (k, v) else p)
  else
    m ++ [(k, v)]

/-- Python `key in map` / `map[key]` lookup. -/
def mapLookup (m : RecordMap) (k : String) : Option NormRecord :=
  match m.find? (fun p => p.1 == k) with
  | some p => some p.2
  | none => none

/-- One iteration of `SyncManager._build_record_map`: normalize a raw
record according to its source.  The GoDaddy branch reads data/ttl/priority
directly; the local branch reads `data or content` and
`priority or prio` with Python truthiness. -/
def normalizeRecord (source : String) (r : PyRecord) : NormRecord :=
  let name := r.name.getD "@"
  if source = "godaddy" then
    { name := name
      type := r.type
      data := r.data
      ttl := r.ttl.getD 3600
      priority := r.priority
      source := source
      original := r }
  else
    { name := name
      type := r.type
      data := pyOrStr r.data r.content
      ttl := r.ttl.getD 3600
      priority := pyOrInt r.priority r.prio
      source := source
      original := r }

/-- `SyncManager._build_record_map`: fold the records into a key-indexed
map, later records overwriting earlier ones under the same key. -/
def buildRecordMap (records : List PyRecord) (source : String) : RecordMap :=
  records.foldl (fun m r =>
    let nr := normalizeRecord source r
    mapInsert m (recordKey nr.name nr.type) nr) []

/-- `SyncManager._records_differ`: stringified-and-trimmed data compare,
then ttl compare, then (for MX/SRV GoDaddy records) the raw priority
values (the `get('priority', 0)` default is inert because normalized
records always carry the priority key, possibly holding `None`). -/
def recordsDiffer (g l : NormRecord) : Bool :=
  if pyStrip (pyStrOfOptStr g.data) ≠ pyStrip (pyStrOfOptStr l.data) then true
  else if g.ttl ≠ l.ttl then true
  else if g.type = some "MX" ∨ g.type = some "SRV" then
    if g.priority ≠ l.priority then true else false
  else false

/-- `SyncManager._create_local_record`: insert a fresh row built from the
GoDaddy-side normalized record and log a `created` history entry.  Fresh
row ids are allocated as one past the maximum id in the store. -/
def createLocalRecord (domainName : String) (store : List StoredRecord)
    (g : NormRecord) : List StoredRecord × HistoryEntry :=
  let freshId := (store.foldl (fun acc r => max acc r.id) 0) + 1
  let row : StoredRecord :=
    { id := freshId
      name := g.name
      type := g.type
      content := g.data
      ttl := g.ttl
      prio := g.priority }
  let h : HistoryEntry :=
    { domainName := domainName
      recordName := g.name
      recordType := g.type
      changeType := "created"
      changeSource := "sync"
      newContent := g.data
      newTtl := some g.ttl
      newPriority := g.priority }
  (store ++ [row], h)

/-- `SyncManager._update_local_record`: require a truthy id on the local
record's original dict, fetch the row, overwrite content/ttl/prio with the
GoDaddy values and log an `updated` history entry with old and new. -/
def updateLocalRecord (domainName : String) (store : List StoredRecord)
    (l g : NormRecord) : Except String (List StoredRecord × HistoryEntry) :=
  match l.original.id with
  | none => .error "No record ID available for update"
  | some i =>
    if i = 0 then .error "No record ID available for update"
    else
      match store.find? (fun r => r.id == i) with
      | none => .error "Records matching query does not exist"
      | some old =>
        let store2 := store.map (fun r =>
          if r.id == i then
            { r with content := g.data, ttl := g.ttl, prio := g.priority }
          else r)
        let h : HistoryEntry :=
          { domainName := domainName
            recordName := g.name
            recordType := g.type
            changeType := "updated"
            changeSource := "sync"
            oldContent := old.content
            newContent := g.data
            oldTtl := some old.ttl
            newTtl := some g.ttl
            oldPriority := old.prio
            newPriority := g.priority }
        .ok (store2, h)

/-- `SyncManager._delete_local_record`: require a truthy id, log a
`deleted` history entry with the row's old values, then delete the row. -/
def deleteLocalRecord (domainName : String) (store : List StoredRecord)
    (l : NormRecord) : Except String (List StoredRecord × HistoryEntry) :=
  match l.original.id with
  | none => .error "No record ID available for deletion"
  | some i =>
    if i = 0 then .error "No record ID available for deletion"
    else
      match store.find? (fun r => r.id == i) with
      | none => .error "Records matching query does not exist"
      | some old =>
        let h : HistoryEntry :=
          { domainName := domainName
            recordName := old.name
            recordType := old.type
            changeType := "deleted"
            changeSource := "sync"
            oldContent := old.content
            oldTtl := some old.ttl
            oldPriority := old.prio }
        (.ok (store.filter (fun r => !(r.id == i)), h))

/-- The result dict of `SyncManager._sync_records_to_local`, extended with
the resulting local store and the history ledger it produced. -/
structure SyncResult where
  created : Nat := 0
  updated : Nat := 0
  deleted : Nat := 0
  conflicts : Nat := 0
  errors : List String := []
  store : List StoredRecord := []
  history : List HistoryEntry := []
deriving DecidableEq

/-- `SyncManager._sync_records_to_local`: walk the GoDaddy map creating or
(on difference) updating local records with per-record error isolation,
then delete local records whose key is absent from the GoDaddy map.
(The ensure-local-domain-exists step touches no records and is omitted.) -/
def syncRecordsToLocal (domainName : String) (godaddyMap localMap : RecordMap)
    (store0 : List StoredRecord) : SyncResult :=
  let init : SyncResult :=
    { created := 0
      updated := 0
      deleted := 0
      conflicts := 0
      errors := []
      store := store0
      history := [] }
  let phase1 := godaddyMap.foldl (fun acc kg =>
    let k := kg.1
    let g := kg.2
    match mapLookup localMap k with
    | some l =>
      if recordsDiffer g l then
        match updateLocalRecord domainName acc.store l g with
        | .ok (st, h) =>
          { acc with
            updated := acc.updated + 1
            conflicts := acc.conflicts + 1
            store := st
            history := acc.history ++ [h] }
        | .error e =>
          { acc with
            errors := acc.errors ++
              ["Error syncing record " ++ k ++ ": " ++ e] }
      else acc
    | none =>
      let (st, h) := createLocalRecord domainName acc.store g
      { acc with
        created := acc.created + 1
        store := st
        history := acc.history ++ [h] }) init
  localMap.foldl (fun acc kl =>
    let k := kl.1
    let l := kl.2
    if (mapLookup godaddyMap k).isSome then acc
    else
      match deleteLocalRecord domainName acc.store l with
      | .ok (st, h) =>
        { acc with
          deleted := acc.deleted + 1
          store := st
          history := acc.history ++ [h] }
      | .error e =>
        { acc with
          errors := acc.errors ++
            ["Error deleting local record " ++ k ++ ": " ++ e] }) phase1

/-- `SyncManager._get_local_records`: read the local rows, skip NS and SOA,
and convert each row to the standardized record dict. -/
def getLocalRecords (store : List StoredRecord) : List PyRecord :=
  store.filterMap (fun r =>
    if r.type = some "NS" ∨ r.type = some "SOA" then none
    else some
      { id := some r.id
        name := some r.name
        type := r.type
        data := r.content
        ttl := some r.ttl
        priority := r.prio })

/-- `SyncManager._get_godaddy_records` (success path): the records the API
returned, with NS records filtered out (only NS, not SOA). -/
def filterGodaddyRecords (records : List PyRecord) : List PyRecord :=
  records.filter (fun r => !(r.type == some "NS"))

/-- The record path of `SyncManager._sync_single_domain`: filter both
sides, build the two comparison maps, and apply `_sync_records_to_local`
against the current local store. -/
def reconcileDomain (domainName : String) (remoteRecords : List PyRecord)
    (store : List StoredRecord) : SyncResult :=
  let godaddyRecords := filterGodaddyRecords remoteRecords
  let localRecords := getLocalRecords store
  let godaddyMap := buildRecordMap godaddyRecords "godaddy"
  let localMap := buildRecordMap localRecords "local"
  syncRecordsToLocal domainName godaddyMap localMap store

/-- The JSON body of one record sent to the GoDaddy API by
`create_dns_record` / `update_dns_record`. -/
structure OutRecord where
  type : String
  name : String
  data : String
  ttl : Int
  priority : Option Int := none
deriving DecidableEq

/-- `GoDaddyAPI.create_dns_record`: the request body it PATCHes, with the
ttl clamped up to GoDaddy's minimum of 600 and the priority included only
when given and the record type is MX or SRV. -/
def createDnsRecordBody (type name data : String) (ttl : Int)
    (priority : Option Int) : OutRecord :=
  { type := type
    name := name
    data := data
    ttl := max ttl 600
    priority :=
      if priority.isSome && (type == "MX" || type == "SRV") then priority
      else none }

/-- `GoDaddyAPI.update_dns_record`: the request body it PUTs; the body is
built exactly as in `create_dns_record`. -/
def updateDnsRecordBody (type name data : String) (ttl : Int)
    (priority : Option Int) : OutRecord :=
  { type := type
    name := name
    data := data
    ttl := max ttl 600
    priority :=
      if priority.isSome && (type == "MX" || type == "SRV") then priority
      else none }

/-- `GoDaddyAPI.replace_all_records`: the records it PUTs after clamping
the ttl of every record that carries one up to 600. -/
def replaceAllRecordsBody (records : List PyRecord) : List PyRecord :=
  records.map (fun r =>
    match r.ttl with
    | some t => { r with ttl := some (max t 600) }
    | none => r)

/-- An outbound write of `GoDaddyAPI.delete_dns_record` (the
replace-with-empty-list PUT). -/
inductive RemoteWrite where
  | putRecords (domain type name : String) (body : List OutRecord)
deriving DecidableEq

/-- `GoDaddyAPI.delete_dns_record`, parametrized by what the
`get_specific_record` lookup returned: an empty lookup returns True with
no write at all, otherwise the records are deleted by PUTting an empty
list. -/
def deleteDnsRecord (domain type name : String)
    (existingRecords : List PyRecord) : Bool × List RemoteWrite :=
  if existingRecords.isEmpty then (true, [])
  else (true, [.putRecords domain type name []])

/-- The fields of a GoDaddyDomainCache row consulted by the push path. -/
structure GDDomainCacheEntry where
  domainName : String
  syncEnabled : Bool
deriving DecidableEq

/-- The record_data dict passed to `push_to_godaddy`. -/
structure PushRecordData where
  operation : Option String := none
  type : String := ""
  name : String := ""
  data : String := ""
  ttl : Option Int := none
  priority : Option Int := none
deriving DecidableEq

/-- A call made to the GoDaddyAPI client by the push path. -/
inductive GDApiCall where
  | createRecord (domain type name data : String) (ttl : Int) (priority : Option Int)
  | updateRecord (domain type name data : String) (ttl : Int) (priority : Option Int)
  | deleteRecord (domain type name : String)
deriving DecidableEq

/-- `SyncManager.push_to_godaddy`, parametrized by the domain-cache lookup
for the domain and by the outcome the GoDaddy API client would produce for
the single call the function makes.  A missing cache entry or a disabled
`sync_enabled` flag returns False before any API interaction; an API
exception is caught and surfaces as False.  The returned list holds the
calls actually issued to the client. -/
def pushToGodaddy (cacheEntry : Option GDDomainCacheEntry)
    (domainName : String) (recordData : PushRecordData)
    (apiOutcome : Except String Bool) : Bool × List GDApiCall :=
  match cacheEntry with
  | none => (false, [])
  | some cache =>
    if !cache.syncEnabled then (false, [])
    else
      let callResult : Bool :=
        match apiOutcome with
        | .ok b => b
        | .error _ => false
      if recordData.operation = some "create" then
        (callResult,
          [.createRecord domainName recordData.type recordData.name
            recordData.data (recordData.ttl.getD 3600) recordData.priority])
      else if recordData.operation = some "update" then
        (callResult,
          [.updateRecord domainName recordData.type recordData.name
            recordData.data (recordData.ttl.getD 3600) recordData.priority])
      else if recordData.operation = some "delete" then
        (callResult,
          [.deleteRecord domainName recordData.type recordData.name])
      else (false, [])

/-- The aggregated results dict a sync run produces (the shape returned by
`_sync_all_domains`; a single-domain run lacks the domains_processed key,
which `full_sync` reads back with default 0). -/
structure SyncCounters where
  domainsProcessed : Nat := 0
  recordsCreated : Nat := 0
  recordsUpdated : Nat := 0
  recordsDeleted : Nat := 0
  conflictsResolved : Nat := 0
  errors : List String := []
deriving DecidableEq

/-- A GoDaddySyncLog row as manipulated by `full_sync` and
`GoDaddySyncLog.mark_failed`. -/
structure SyncLogState where
  syncType : String
  domainName : Option String := none
  status : String := "running"
  domainsProcessed : Nat := 0
  recordsCreated : Nat := 0
  recordsUpdated : Nat := 0
  recordsDeleted : Nat := 0
  conflictsResolved : Nat := 0
  errors : List String := []
  errorMessage : String := ""
  completedAt : Option Nat := none
deriving DecidableEq

/-- `GoDaddySyncLog.mark_failed`: set status failed, record the message,
stamp completed_at. -/
def markFailed (log : SyncLogState) (errorMessage : String) (now : Nat) :
    SyncLogState :=
  { log with
    status := "failed"
    errorMessage := errorMessage
    completedAt := some now }

/-- Everything `SyncManager.full_sync` leaves behind: the final sync log
row, whether the account's last_sync timestamp was updated, and what the
caller receives (the results dict, or the re-raised exception). -/
structure FullSyncOutcome where
  log : SyncLogState
  lastSyncUpdated : Bool
  result : Except String SyncCounters

/-- `SyncManager.full_sync`, parametrized by the outcome of the sync body
(`_sync_single_domain` or `_sync_all_domains`, or an escaping exception
with its message).  On success the log becomes completed when the error
list is empty and partial otherwise, the counters and completed_at are
persisted and the account's last_sync is updated; on an exception the log
is marked failed via `mark_failed` and the exception is re-raised. -/
def fullSync (domainName : Option String)
    (runOutcome : Except String SyncCounters) (now : Nat) : FullSyncOutcome :=
  let log0 : SyncLogState :=
    { syncType := if domainName.isSome then "manual" else "scheduled"
      domainName := domainName
      status := "running" }
  match runOutcome with
  | .ok results =>
    { log :=
        { log0 with
          status := if results.errors.isEmpty then "completed" else "partial"
          domainsProcessed := results.domainsProcessed
          recordsCreated := results.recordsCreated
          recordsUpdated := results.recordsUpdated
          recordsDeleted := results.recordsDeleted
          conflictsResolved := results.conflictsResolved
          errors := results.errors
          completedAt := some now }
      lastSyncUpdated := true
      result := .ok results }
  | .error e =>
    { log := markFailed log0 e now
      lastSyncUpdated := false
      result := .error e }

/-- A domain summary dict from the GoDaddy domain listing, as read by
`discover_and_classify_domains` and `_classify_single_domain`. -/
structure DomainInfo where
  domainName : Option String := none
  domain : Option String := none
  status : Option String := none
  expires : Option String := none
  renewAuto : Bool := false
deriving DecidableEq

/-- The classification dict `_classify_single_domain` returns.  The error
branch fills only domain/type/error/points_to_server/detected_ips; the
remaining fields keep their defaults there. -/
structure Classification where
  domain : String
  status : String := "UNKNOWN"
  expires : Option String := none
  autoRenew : Bool := false
  recordsCount : Nat := 0
  type : String
  hostingDetail : Option String := none
  pointsToServer : Bool := false
  detectedIps : List String := []
  error : Option String := none
  rootRecordsCount : Nat := 0
  wwwRecordsCount : Nat := 0
  otherRecordsCount : Nat := 0
deriving DecidableEq

/-- The analysis dict `_analyze_a_records` returns. -/
structure AnalysisResult where
  type : String
  hostingDetail : String
  pointsToServer : Bool
  detectedIps : List String
  rootRecordsCount : Nat
  wwwRecordsCount : Nat
  otherRecordsCount : Nat
deriving DecidableEq

/-- The data value of an A record when it is truthy (present and
non-empty); records failing this test are skipped by the analysis loop. -/
def truthyData (r : PyRecord) : Option String :=
  match r.data with
  | some d => if d = "" then none else some d
  | none => none

/-- The detected IPs of the analysis loop: the truthy data values of the A
records, in input order. -/
def aValues (records : List PyRecord) : List String :=
  records.filterMap truthyData

/-- The mixed-hosting detail string of `_analyze_a_records`. -/
def mixedHostingDetail (serverIp : String) (otherIps : List String) : String :=
  "Mixed hosting - server IP " ++ serverIp ++ " and external IPs " ++
    pyListRepr otherIps

/-- The fully-hosted detail string of `_analyze_a_records`. -/
def fullyHostedDetail (serverIp : String) : String :=
  "Fully hosted on server - IP " ++ serverIp

/-- The hosted-elsewhere detail string of `_analyze_a_records`. -/
def hostedElsewhereDetail (detectedIps : List String) : String :=
  "Hosted externally - IPs " ++ pyListRepr detectedIps

/-- `DomainClassifier._analyze_a_records`: skip records with a falsy data
value; collect detected IPs, test each against the server IP, and bucket
record names into root / www / other; then pick the hosting type:
server_hosted when any value matched (mixed detail when non-matching
values also exist), else external_hosted when any value was seen, else
parked. -/
def analyzeARecords (domainName serverIp : String)
    (aRecords : List PyRecord) : AnalysisResult :=
  let detectedIps := aValues aRecords
  let pointsToServer := detectedIps.contains serverIp
  let otherIps := detectedIps.filter (fun d => !(d == serverIp))
  let isRoot := fun (r : PyRecord) =>
    r.name.getD "@" == "@" || r.name.getD "@" == domainName
  let isWww := fun (r : PyRecord) =>
    r.name.getD "@" == "www" || r.name.getD "@" == "www." ++ domainName
  let counted := aRecords.filter (fun r => (truthyData r).isSome)
  let rootRecordsCount := (counted.filter isRoot).length
  let wwwRecordsCount := (counted.filter (fun r => !isRoot r && isWww r)).length
  let otherRecordsCount :=
    (counted.filter (fun r => !isRoot r && !isWww r)).length
  let typeAndDetail : String × String :=
    if pointsToServer then
      if !otherIps.isEmpty then
        ("server_hosted", mixedHostingDetail serverIp otherIps)
      else
        ("server_hosted", fullyHostedDetail serverIp)
    else
      if !detectedIps.isEmpty then
        ("external_hosted", hostedElsewhereDetail detectedIps)
      else
        ("parked", "No valid A records found")
  { type := typeAndDetail.1
    hostingDetail := typeAndDetail.2
    pointsToServer := pointsToServer
    detectedIps := detectedIps
    rootRecordsCount := rootRecordsCount
    wwwRecordsCount := wwwRecordsCount
    otherRecordsCount := otherRecordsCount }

/-- `DomainClassifier._classify_single_domain`, parametrized by the
outcome of the DNS-records fetch.  Any error is caught and reported as an
errors-typed classification; otherwise the A records drive the analysis,
with an empty A-record set classified parked immediately. -/
def classifySingleDomain (domainName serverIp : String) (info : DomainInfo)
    (fetch : Except String (List PyRecord)) : Classification :=
  match fetch with
  | .error e =>
    { domain := domainName
      type := "errors"
      error := some e
      pointsToServer := false
      detectedIps := [] }
  | .ok dnsRecords =>
    let aRecords := dnsRecords.filter (fun r => r.type == some "A")
    let base : Classification :=
      { domain := domainName
        status := info.status.getD "UNKNOWN"
        expires := info.expires
        autoRenew := info.renewAuto
        recordsCount := dnsRecords.length
        type := "" }
    if aRecords.isEmpty then
      { base with
        type := "parked"
        hostingDetail := some "No A records found"
        pointsToServer := false
        detectedIps := [] }
    else
      let an := analyzeARecords domainName serverIp aRecords
      { base with
        type := an.type
        hostingDetail := some an.hostingDetail
        pointsToServer := an.pointsToServer
        detectedIps := an.detectedIps
        rootRecordsCount := an.rootRecordsCount
        wwwRecordsCount := an.wwwRecordsCount
        otherRecordsCount := an.otherRecordsCount }

/-- One entry of the remote domain listing together with the outcome the
per-domain DNS-records fetch would have. -/
structure DomainEntry where
  info : DomainInfo
  fetch : Except String (List PyRecord)

/-- The four buckets `discover_and_classify_domains` returns. -/
structure Classified where
  serverHosted : List Classification := []
  extHosted : List Classification := []
  parked : List Classification := []
  errors : List Classification := []
deriving DecidableEq

/-- The `domain_info.get('domainName') or domain_info.get('domain')` name
of a listing entry, `none` when the result is falsy (the loop then skips
the entry with `continue`). -/
def effectiveName (info : DomainInfo) : Option String :=
  match pyOrStr info.domainName info.domain with
  | some s => if s = "" then none else some s
  | none => none

/-- `classified[classification['type']].append(...)`: route a
classification into its bucket.  `_classify_single_domain` only ever
produces the four listed types; a stray type would raise a KeyError which
the per-domain handler turns into an errors entry. -/
def bucketAdd (c : Classification) (rest : Classified) : Classified :=
  if c.type = "server_hosted" then
    { rest with serverHosted := c :: rest.serverHosted }
  else if c.type = "external_hosted" then
    { rest with extHosted := c :: rest.extHosted }
  else if c.type = "parked" then
    { rest with parked := c :: rest.parked }
  else
    { rest with errors := c :: rest.errors }

/-- `DomainClassifier.discover_and_classify_domains` over the listing:
entries whose name is falsy are skipped, every other entry is classified
(classification failures yield errors entries rather than aborting) and
routed into exactly one bucket, in listing order. -/
def discoverAndClassify (serverIp : String) :
    List DomainEntry → Classified
  | [] => { serverHosted := [], extHosted := [], parked := [], errors := [] }
  | d :: ds =>
    let rest := discoverAndClassify serverIp ds
    match effectiveName d.info with
    | none => rest
    | some n => bucketAdd (classifySingleDomain n serverIp d.info d.fetch) rest

/-- Total number of classifications across the four returned buckets. -/
def bucketTotal (c : Classified) : Nat :=
  c.serverHosted.length + c.extHosted.length + c.parked.length +
    c.errors.length

/-- The difference test exactly as the spec sentence words it: trimmed
values differ, or ttls differ, or — for MX/SRV only — the priorities
compared as integers with a default of 0 when absent differ. -/
def differClaim (g l : NormRecord) : Prop :=
  pyStrip (pyStrOfOptStr g.data) ≠ pyStrip (pyStrOfOptStr l.data) ∨
  g.ttl ≠ l.ttl ∨
  ((g.type = some "MX" ∨ g.type = some "SRV") ∧
    g.priority.getD 0 ≠ l.priority.getD 0)

instance (g l : NormRecord) : Decidable (differClaim g l) := by
  unfold differClaim; infer_instance

/-- The difference test as the code actually behaves: as `differClaim`,
except that the MX/SRV priorities are compared as raw optional values, a
missing priority (Python None) being distinct from every integer. -/
def differActual (g l : NormRecord) : Prop :=
  pyStrip (pyStrOfOptStr g.data) ≠ pyStrip (pyStrOfOptStr l.data) ∨
  g.ttl ≠ l.ttl ∨
  ((g.type = some "MX" ∨ g.type = some "SRV") ∧ g.priority ≠ l.priority)

instance (g l : NormRecord) : Decidable (differActual g l) := by
  unfold differActual; infer_instance

/-- C1: Diff correctness of one reconciliation pass.  With remote map
{(@, A, "1.2.3.4", 3600)} and empty local map the pass counts 1 created,
0 updated, 0 deleted; with remote {(@, A, "1.2.3.4", 3600)} against local
{(@, A, "9.9.9.9", 3600)} it counts 0 created, 1 updated, 1 conflict
resolved, 0 deleted; with empty remote against local
{(@, A, "1.2.3.4", 3600)} it counts 0 created, 0 updated, 1 deleted. -/
theorem claim_C1_diff_correctness :
    (let r := syncRecordsToLocal "example.com"
        (buildRecordMap
          [({ name := some "@"
              type := some "A"
              data := some "1.2.3.4"
              ttl := some 3600 } : PyRecord)] "godaddy")
        (buildRecordMap [] "local") []
     r.created = 1 ∧ r.updated = 0 ∧ r.deleted = 0) ∧
    (let r := syncRecordsToLocal "example.com"
        (buildRecordMap
          [({ name := some "@"
              type := some "A"
              data := some "1.2.3.4"
              ttl := some 3600 } : PyRecord)] "godaddy")
        (buildRecordMap
          [({ id := some 1
              name := some "@"
              type := some "A"
              data := some "9.9.9.9"
              ttl := some 3600 } : PyRecord)] "local")
        [({ id := 1
            name := "@"
            type := some "A"
            content := some "9.9.9.9"
            ttl := 3600
            prio := none } : StoredRecord)]
     r.created = 0 ∧ r.updated = 1 ∧ r.conflicts = 1 ∧ r.deleted = 0) ∧
    (let r := syncRecordsToLocal "example.com"
        (buildRecordMap [] "godaddy")
        (buildRecordMap
          [({ id := some 1
              name := some "@"
              type := some "A"
              data := some "1.2.3.4"
              ttl := some 3600 } : PyRecord)] "local")
        [({ id := 1
            name := "@"
            type := some "A"
            content := some "1.2.3.4"
            ttl := 3600
            prio := none } : StoredRecord)]
     r.created = 0 ∧ r.updated = 0 ∧ r.deleted = 1) := by
  decide

/-- C2: the claimed idempotence of reconciliation fails on the code.  A
remote MX record with priority 0 is created on the first run, but the
second run — with the remote unchanged and the local store holding exactly
what the first run wrote — reports one update (and one conflict) instead
of zero: `_build_record_map` rebuilds the local priority as
`record.get('priority') or record.get('prio')`, which turns the stored 0
into None, and `_records_differ` then finds 0 != None. -/
theorem claim_C2_idempotence_failure :
    let mx : PyRecord :=
      { name := some "@"
        type := some "MX"
        data := some "mail.example.com"
        ttl := some 3600
        priority := some 0 }
    let r1 := reconcileDomain "example.com" [mx] []
    let r2 := reconcileDomain "example.com" [mx] r1.store
    r1.created = 1 ∧ r1.updated = 0 ∧ r1.errors = [] ∧
    r2.created = 0 ∧ r2.updated = 1 ∧ r2.conflicts = 1 ∧ r2.deleted = 0 := by
  decide

/-- C3: the claimed NS/SOA exclusion fails on the code for SOA.
`_get_godaddy_records` filters only NS from the remote side, while
`_get_local_records` filters both NS and SOA from the local side, so a
remote SOA record never matches a local key and is created locally (with a
`created` history entry for a SOA record) — and again on every later run,
since the local copy is filtered out of the local map each time. -/
theorem claim_C3_soa_not_excluded :
    let soa : PyRecord :=
      { name := some "@"
        type := some "SOA"
        data := some "ns1.example.com hostmaster.example.com 1"
        ttl := some 3600 }
    let r1 := reconcileDomain "example.com" [soa] []
    let r2 := reconcileDomain "example.com" [soa] r1.store
    r1.created = 1 ∧
    r1.history.map (fun h => (h.changeType, h.recordType)) =
      [("created", some "SOA")] ∧
    r2.created = 1 := by
  decide

/-- C4 counterexample: two normalized MX records under the same key with
equal trimmed values and equal ttls, the remote one carrying priority 0
and the local one carrying no priority (None).  Compared as integers with
default 0 the priorities are equal, so the claim says no difference — but
`_records_differ` reports a difference. -/
theorem claim_C4_counterexample :
    let g : NormRecord :=
      { name := "@"
        type := some "MX"
        data := some "10 mail.example.com"
        ttl := 3600
        priority := some 0
        source := "godaddy"
        original := {} }
    let l : NormRecord :=
      { name := "@"
        type := some "MX"
        data := some "10 mail.example.com"
        ttl := 3600
        priority := none
        source := "local"
        original := {} }
    recordsDiffer g l = true ∧ ¬ differClaim g l := by
  decide

/-- C4 amended: the difference test reports a difference iff the trimmed
stringified values differ, the ttls differ, or — only when the remote
record's type is MX or SRV — the priorities differ as raw optional values,
a missing priority (None) being distinct from every integer, 0 included;
records of other types never differ by priority alone. -/
theorem claim_C4_difference_semantics (g l : NormRecord) :
    recordsDiffer g l = true ↔ differActual g l := by
  unfold recordsDiffer differActual
  split_ifs <;> simp_all

/-- C5: TTL floor on remote writes.  Every record body built by
`create_dns_record` or `update_dns_record` carries a ttl of at least 600
(the requested ttl clamped up), and every record sent by
`replace_all_records` that carries a ttl carries one of at least 600. -/
theorem claim_C5_ttl_floor (type name data : String) (ttl : Int)
    (priority : Option Int) (records : List PyRecord) :
    600 ≤ (createDnsRecordBody type name data ttl priority).ttl ∧
    600 ≤ (updateDnsRecordBody type name data ttl priority).ttl ∧
    (replaceAllRecordsBody records).all
      (fun r => match r.ttl with
        | some t => decide (600 ≤ t)
        | none => true) = true := by
  refine ⟨le_max_right _ _, le_max_right _ _, ?_⟩
  induction records with
  | nil => rfl
  | cons r rs ih =>
    simp only [replaceAllRecordsBody, List.map_cons, List.all_cons] at ih ⊢
    cases h : r.ttl with
    | none => simp [h, ih]
    | some t => simp [h, ih, le_max_right]

/-- C6: Sync Run Log terminal status.  When the sync body returns results,
the log ends completed exactly when the aggregated error list is empty and
partial otherwise, completed_at is set and the account's last_sync is
updated, and the results are returned; when an exception escapes, the log
is marked failed with the exception's message recorded (non-empty whenever
the message is), completed_at is set, and the exception is re-raised. -/
theorem claim_C6_run_status (domainName : Option String)
    (runOutcome : Except String SyncCounters) (now : Nat) :
    (∀ results, runOutcome = .ok results →
      ((fullSync domainName runOutcome now).log.status = "completed" ↔
        results.errors = []) ∧
      ((fullSync domainName runOutcome now).log.status = "partial" ↔
        results.errors ≠ []) ∧
      (fullSync domainName runOutcome now).log.completedAt = some now ∧
      (fullSync domainName runOutcome now).lastSyncUpdated = true ∧
      (fullSync domainName runOutcome now).result = .ok results) ∧
    (∀ msg, runOutcome = .error msg →
      (fullSync domainName runOutcome now).log.status = "failed" ∧
      (fullSync domainName runOutcome now).log.errorMessage = msg ∧
      (msg ≠ "" →
        (fullSync domainName runOutcome now).log.errorMessage ≠ "") ∧
      (fullSync domainName runOutcome now).log.completedAt = some now ∧
      (fullSync domainName runOutcome now).lastSyncUpdated = false ∧
      (fullSync domainName runOutcome now).result = .error msg) := by
  constructor
  · intro results h
    subst h
    by_cases he : results.errors.isEmpty <;>
      simp_all [fullSync, List.isEmpty_iff]
  · intro msg h
    subst h
    simp [fullSync, markFailed]

/-- C6 witness: a run with no errors ends completed; a run aborted by an
exception with message "boom" ends failed with a non-empty message. -/
theorem claim_C6_run_status_witness :
    (fullSync none (Except.ok ({} : SyncCounters)) 5).log.status =
      "completed" ∧
    (fullSync none (Except.error "boom") 5).log.status = "failed" ∧
    (fullSync none (Except.error "boom") 5).log.errorMessage ≠ "" := by
  have h1 := (claim_C6_run_status none (Except.ok {}) 5).1 {} rfl
  have h2 := (claim_C6_run_status none (Except.error "boom") 5).2 "boom" rfl
  exact ⟨h1.1.mpr rfl, h2.1, h2.2.2.1 (by decide)⟩

lemma bucketTotal_bucketAdd (c : Classification) (r : Classified) :
    bucketTotal (bucketAdd c r) = bucketTotal r + 1 := by
  unfold bucketAdd bucketTotal
  split_ifs <;> simp <;> omega

lemma filter_isEmpty_eq_not_any {α : Type} (l : List α) (p : α → Bool) :
    (l.filter p).isEmpty = !(l.any p) := by
  induction l with
  | nil => rfl
  | cons a l ih => cases h : p a <;> simp [List.filter_cons, h, ih]

lemma filterNe_isEmpty_eq_all (l : List String) (ip : String) :
    (l.filter (fun v => !(v == ip))).isEmpty = l.all (fun v => v == ip) := by
  induction l with
  | nil => rfl
  | cons a l ih => cases h : (a == ip) <;> simp [List.filter_cons, h, ih]

/-- C7 counterexample: a domain whose only A record has no data value.  A
records are present and none of their values equals the server IP
"1.2.3.4", so the claim says the domain classifies external_hosted — but
the analysis loop skips records with a falsy value, finds no detected IPs,
and classifies the domain parked. -/
theorem claim_C7_counterexample :
    let records : List PyRecord := [{ name := some "@", type := some "A" }]
    let c := classifySingleDomain "example.com" "1.2.3.4" {} (.ok records)
    (records.filter (fun r => r.type == some "A")) ≠ [] ∧
    records.all (fun r => !(r.data == some "1.2.3.4")) = true ∧
    c.type = "parked" ∧ c.type ≠ "external_hosted" ∧
    c.pointsToServer = false := by
  decide

/-- C7 amended: classification partition with empty-valued A records
ignored.  A domain with no A records classifies parked; a domain one of
whose A-record (non-empty) values equals the server IP classifies
server_hosted with points_to_server=true, carrying the mixed-hosting
detail exactly when non-matching values are also present; a domain with at
least one non-empty A-record value none of which equals the server IP
classifies external_hosted with points_to_server=false; and a domain whose
A records are present but all lack a (non-empty) value classifies parked,
not external_hosted. -/
theorem claim_C7_classification_partition (serverIp domainName : String)
    (info : DomainInfo) (dnsRecords : List PyRecord) :
    ((dnsRecords.filter (fun r => r.type == some "A")) = [] →
      (classifySingleDomain domainName serverIp info
        (.ok dnsRecords)).type = "parked" ∧
      (classifySingleDomain domainName serverIp info
        (.ok dnsRecords)).pointsToServer = false) ∧
    ((aValues (dnsRecords.filter (fun r => r.type == some "A"))).contains
        serverIp = true →
      (classifySingleDomain domainName serverIp info
        (.ok dnsRecords)).type = "server_hosted" ∧
      (classifySingleDomain domainName serverIp info
        (.ok dnsRecords)).pointsToServer = true ∧
      ((aValues (dnsRecords.filter (fun r => r.type == some "A"))).any
          (fun v => !(v == serverIp)) = true →
        (classifySingleDomain domainName serverIp info
          (.ok dnsRecords)).hostingDetail =
          some (mixedHostingDetail serverIp
            ((aValues (dnsRecords.filter (fun r => r.type == some "A"))).filter
              (fun v => !(v == serverIp))))) ∧
      ((aValues (dnsRecords.filter (fun r => r.type == some "A"))).all
          (fun v => v == serverIp) = true →
        (classifySingleDomain domainName serverIp info
          (.ok dnsRecords)).hostingDetail =
          some (fullyHostedDetail serverIp))) ∧
    (aValues (dnsRecords.filter (fun r => r.type == some "A")) ≠ [] →
      (aValues (dnsRecords.filter (fun r => r.type == some "A"))).contains
        serverIp = false →
      (classifySingleDomain domainName serverIp info
        (.ok dnsRecords)).type = "external_hosted" ∧
      (classifySingleDomain domainName serverIp info
        (.ok dnsRecords)).pointsToServer = false) ∧
    ((dnsRecords.filter (fun r => r.type == some "A")) ≠ [] →
      aValues (dnsRecords.filter (fun r => r.type == some "A")) = [] →
      (classifySingleDomain domainName serverIp info
        (.ok dnsRecords)).type = "parked" ∧
      (classifySingleDomain domainName serverIp info
        (.ok dnsRecords)).pointsToServer = false) := by
  refine ⟨?_, ?_, ?_, ?_⟩
  · intro h
    simp [classifySingleDomain, h]
  · intro h
    have hA : (dnsRecords.filter (fun r => r.type == some "A")).isEmpty
        = false := by
      cases hA2 : dnsRecords.filter (fun r => r.type == some "A") <;>
        simp_all [aValues]
    have hmem : serverIp ∈ aValues (dnsRecords.filter
        (fun r => r.type == some "A")) := by
      simpa using h
    refine ⟨?_, ?_, ?_, ?_⟩
    · cases ho : ((aValues (dnsRecords.filter
          (fun r => r.type == some "A"))).filter
            (fun v => !(v == serverIp))).isEmpty <;>
        simp [classifySingleDomain, analyzeARecords, hA, hmem, ho]
    · simp [classifySingleDomain, analyzeARecords, hA, hmem]
    · intro hany
      have ho : ((aValues (dnsRecords.filter
          (fun r => r.type == some "A"))).filter
            (fun v => !(v == serverIp))).isEmpty = false := by
        rw [filter_isEmpty_eq_not_any, hany]; rfl
      simp [classifySingleDomain, analyzeARecords, hA, hmem, ho]
    · intro hall
      have ho : ((aValues (dnsRecords.filter
          (fun r => r.type == some "A"))).filter
            (fun v => !(v == serverIp))).isEmpty = true := by
        rw [filterNe_isEmpty_eq_all, hall]
      simp [classifySingleDomain, analyzeARecords, hA, hmem, ho]
  · intro hne hc
    have hA : (dnsRecords.filter (fun r => r.type == some "A")).isEmpty
        = false := by
      cases hA2 : dnsRecords.filter (fun r => r.type == some "A") <;>
        simp_all [aValues]
    have hnotmem : ¬ serverIp ∈ aValues (dnsRecords.filter
        (fun r => r.type == some "A")) := by
      simpa using hc
    simp [classifySingleDomain, analyzeARecords, hA, hnotmem, hne]
  · intro hAne hv
    have hA : (dnsRecords.filter (fun r => r.type == some "A")).isEmpty
        = false := by
      cases hA2 : dnsRecords.filter (fun r => r.type == some "A") <;>
        simp_all
    simp [classifySingleDomain, analyzeARecords, hA, hv]

/-- C7 witness: concrete domains for each amended branch — a matching A
record classifies server_hosted, a non-matching one external_hosted, and
no A records classifies parked. -/
theorem claim_C7_classification_partition_witness :
    (classifySingleDomain "example.com" "1.2.3.4" {}
      (.ok [{ name := some "@"
              type := some "A"
              data := some "1.2.3.4" }])).type = "server_hosted" ∧
    (classifySingleDomain "example.com" "1.2.3.4" {}
      (.ok [{ name := some "@"
              type := some "A"
              data := some "5.6.7.8" }])).type = "external_hosted" ∧
    (classifySingleDomain "example.com" "1.2.3.4" {}
      (.ok ([] : List PyRecord))).type = "parked" := by
  refine ⟨?_, ?_, ?_⟩
  · exact ((claim_C7_classification_partition "1.2.3.4" "example.com" {}
      [{ name := some "@"
         type := some "A"
         data := some "1.2.3.4" }]).2.1 (by decide)).1
  · exact ((claim_C7_classification_partition "1.2.3.4" "example.com" {}
      [{ name := some "@"
         type := some "A"
         data := some "5.6.7.8" }]).2.2.1 (by decide) (by decide)).1
  · exact ((claim_C7_classification_partition "1.2.3.4" "example.com" {}
      []).1 (by decide)).1

/-- C8 counterexample: a listing with one entry that carries neither a
domainName nor a domain key.  The loop skips it with `continue`, so the
entry lands in none of the four buckets — it is silently dropped, against
the claim that every listed domain appears in exactly one bucket. -/
theorem claim_C8_counterexample :
    bucketTotal (discoverAndClassify "1.2.3.4"
      [{ info := {}, fetch := .ok [] }]) = 0 ∧
    ([{ info := ({} : DomainInfo), fetch := .ok [] }] :
      List DomainEntry).length = 1 := by
  exact ⟨rfl, rfl⟩

/-- C8 amended: classifier failure isolation and totality for named
entries.  Across every listing — whatever mix of per-domain fetch
successes and failures it contains — each entry whose
`domainName`-or-`domain` name is non-empty lands in exactly one of the
four buckets (failures land in errors without aborting the rest), so the
bucket totals equal the number of named entries; entries with no or empty
name are silently skipped. -/
theorem claim_C8_bucket_partition (serverIp : String)
    (ds : List DomainEntry) :
    bucketTotal (discoverAndClassify serverIp ds) =
      (ds.filter (fun d => (effectiveName d.info).isSome)).length := by
  induction ds with
  | nil => rfl
  | cons d ds ih =>
    cases h : effectiveName d.info with
    | none => simpa [discoverAndClassify, h, List.filter_cons] using ih
    | some n =>
      simp [discoverAndClassify, h, List.filter_cons, bucketTotal_bucketAdd,
        ih]

/-- C9: Push-path silent skip.  When the domain has no Domain Cache entry,
or its entry has sync_enabled=false, `push_to_godaddy` returns False
without issuing any call to the GoDaddy API client and without raising. -/
theorem claim_C9_push_skip (domainName : String)
    (recordData : PushRecordData) (apiOutcome : Except String Bool) :
    (pushToGodaddy none domainName recordData apiOutcome = (false, [])) ∧
    (∀ cache : GDDomainCacheEntry, cache.syncEnabled = false →
      pushToGodaddy (some cache) domainName recordData apiOutcome =
        (false, [])) := by
  refine ⟨rfl, ?_⟩
  intro cache h
  simp [pushToGodaddy, h]

/-- C9 witness: a cached but sync-disabled domain is skipped with False
and no API call. -/
theorem claim_C9_push_skip_witness :
    pushToGodaddy
      (some { domainName := "example.com", syncEnabled := false })
      "example.com" {} (Except.ok true) = (false, []) := by
  exact (claim_C9_push_skip "example.com" {} (Except.ok true)).2
    { domainName := "example.com", syncEnabled := false } rfl

/-- C10: deleting an already-absent remote record is a successful no-op:
when the `get_specific_record` lookup comes back empty,
`delete_dns_record` returns True without issuing the
replace-with-empty-list PUT. -/
theorem claim_C10_delete_absent_noop (domain type name : String)
    (existingRecords : List PyRecord) (h : existingRecords = []) :
    deleteDnsRecord domain type name existingRecords = (true, []) := by
  subst h
  rfl

/-- C10 witness: deleting a record whose remote lookup is empty performs
no write. -/
theorem claim_C10_delete_absent_noop_witness :
    deleteDnsRecord "example.com" "A" "@" [] = (true, []) :=
  claim_C10_delete_absent_noop "example.com" "A" "@" [] rfl

end CPgodaddyDNS
